import Mathlib

/-!
A verification development for a small storefront backend (`src/index.ts`):
an HTTP server bridging a frontend to a payment gateway (checkout session
creation and payment verification) and an SMTP relay (contact-form mails and
order receipts).

Each request handler is embedded as a pure Lean function from the request
payload plus an environment (the configured credentials and the outcomes the
external services would return) to the HTTP response paired with the ordered
trace of external calls the handler performs.  JavaScript numbers are
modelled as exact rationals, JavaScript truthiness on strings as
`truthyS`, and `Math.round` as `jsRound`.
-/

/-- JavaScript truthiness for a possibly-absent string value: `undefined`
and the empty string are falsy, every other string is truthy. -/
def truthyS : Option String → Bool
  | none => false
  | some s => s ≠ ""

/-- JavaScript `a || b` on possibly-absent strings: yields `a` when `a` is
truthy, otherwise `b` (as in `process.env.ADMIN_EMAIL || process.env.EMAIL_USER`). -/
def orStr (a b : Option String) : Option String :=
  if truthyS a then a else b

/-- JavaScript `v || d` where `v` is a number looked up in an object
(`undefined` when the key is absent): falsy values (absent key, zero)
fall back to `d`. -/
def jsOrQ (v : Option ℚ) (d : ℚ) : ℚ :=
  match v with
  | some x => if x = 0 then d else x
  | none => d

/-- JavaScript `Math.round` on an exact rational: round half toward
positive infinity, i.e. `⌊x + 1/2⌋`. -/
def jsRound (x : ℚ) : ℤ :=
  Rat.floor (x + 1/2)

/-- Round half away from zero (a spec-side definition, used to state that
the rounding used by the code agrees with it on non-negative inputs). -/
def roundHalfAwayFromZero (x : ℚ) : ℤ :=
  if 0 ≤ x then Rat.floor (x + 1/2) else -Rat.floor (-x + 1/2)

/-- `matchesHere pat l`: `pat` is an initial segment of `l`. -/
def matchesHere : List Char → List Char → Bool
  | [], _ => true
  | _ :: _, [] => false
  | p :: ps, c :: cs => p == c && matchesHere ps cs

/-- `occursIn pat l`: `pat` occurs contiguously somewhere inside `l`. -/
def occursIn : List Char → List Char → Bool
  | pat, [] => pat.isEmpty
  | pat, c :: cs => matchesHere pat (c :: cs) || occursIn pat cs

/-- JavaScript `String.prototype.includes`: `jsIncludes s pat` holds when
`pat` occurs as a contiguous substring of `s`. -/
def jsIncludes (s pat : String) : Bool :=
  occursIn pat.toList s.toList

/-- A character admitted by the character class `[^\s@]` of the contact
form email regex: neither whitespace nor `@`. -/
def emailChar (c : Char) : Bool :=
  !c.isWhitespace && c != '@'

/-- The test `emailRegex.test(email)` for
`/^[^\s@]+@[^\s@]+\.[^\s@]+$/` (src/index.ts line 116): the string is
`local@domain` with exactly one `@`, both sides non-empty and free of
whitespace and `@`, and the domain part contains a `.` that is neither
its first nor its last character. -/
def emailRegexTest (s : String) : Bool :=
  match s.toList.splitOn '@' with
  | [l, d] =>
    !l.isEmpty && l.all emailChar && !d.isEmpty && d.all emailChar
      && (d.drop 1).dropLast.contains '.'
  | _ => false

/-- A cart item (interface `CartItem`, src/index.ts lines 70-74). -/
structure CartItem where
  title : String
  price : ℚ
  quantity : ℚ
deriving DecidableEq, Repr

/-- The body of `POST /create-checkout-session`
(interface `CreateCheckoutSessionRequest`, src/index.ts lines 76-83). -/
structure CreateCheckoutSessionRequest where
  items : List CartItem
  customerEmail : String
  successUrl : String
  cancelUrl : String
  currency : String
  currencyMultiplier : ℚ
deriving DecidableEq, Repr

/-- The currencies the checkout handler accepts verbatim
(src/index.ts line 342). -/
def supportedCurrencies : List String :=
  ["USD", "GBP", "EUR", "CAD", "AUD", "NGN"]

/-- The effective currency used for the checkout session: the requested
currency when it is in `supportedCurrencies` (exact string membership),
otherwise `USD` (src/index.ts line 343). -/
def stripeCurrency (currency : String) : String :=
  if supportedCurrencies.contains currency then currency else "USD"

/-- The fixed shipping-rate table `shippingRates` (src/index.ts lines
357-361): `USD ↦ 10`, `GBP ↦ 7.9`, `NGN ↦ 15000`, every other key absent. -/
def shippingRates (c : String) : Option ℚ :=
  if c = "USD" then some 10
  else if c = "GBP" then some (79/10)
  else if c = "NGN" then some 15000
  else none

/-- `shippingRates[stripeCurrency] || 10` (src/index.ts line 363). -/
def shippingAmount (c : String) : ℚ :=
  jsOrQ (shippingRates c) 10

/-- One element of the `line_items` array sent to the gateway: the
`price_data` fields (`currency`, `product_data.name`,
`product_data.description`, `unit_amount`) together with the line
`quantity` (src/index.ts lines 345-375). -/
structure LineItem where
  currency : String
  name : String
  description : Option String
  unit_amount : ℤ
  quantity : ℚ
deriving DecidableEq, Repr

/-- The list of line items the checkout handler builds: one per cart item
(same order, `unit_amount = Math.round(price * currencyMultiplier)`),
followed by the shipping line (quantity 1, the per-currency shipping
surcharge converted through the multiplier), src/index.ts lines 345-375. -/
def lineItems (req : CreateCheckoutSessionRequest) : List LineItem :=
  (req.items.map fun item =>
    { currency := stripeCurrency req.currency
      name := item.title
      description := none
      unit_amount := jsRound (item.price * req.currencyMultiplier)
      quantity := item.quantity })
  ++ [{ currency := stripeCurrency req.currency
        name := "Shipping"
        description := some ("Standard shipping fee")
        unit_amount := jsRound (shippingAmount (stripeCurrency req.currency) * req.currencyMultiplier)
        quantity := 1 }]

/-- The argument of `stripe.checkout.sessions.create` (src/index.ts lines
377-390): the line items plus customer email, redirect URLs and metadata. -/
structure SessionCreateParams where
  line_items : List LineItem
  customer_email : String
  success_url : String
  cancel_url : String
  metadata_customer_email : String
  metadata_items_count : String
  metadata_original_currency : String
deriving DecidableEq, Repr

/-- The session-creation parameters built from a checkout request. -/
def checkoutParams (req : CreateCheckoutSessionRequest) : SessionCreateParams :=
  { line_items := lineItems req
    customer_email := req.customerEmail
    success_url := req.successUrl
    cancel_url := req.cancelUrl
    metadata_customer_email := req.customerEmail
    metadata_items_count := toString req.items.length
    metadata_original_currency := req.currency }

/-- The session object returned by the gateway on success: its `id` and
(possibly null) redirect `url`. -/
structure StripeSession where
  id : String
  url : Option String
deriving DecidableEq, Repr

/-- The environment of the checkout handler: what the single
`stripe.checkout.sessions.create` call would return — a session, or a
thrown error carrying a message. -/
structure CheckoutEnv where
  createResult : Except String StripeSession

/-- The session data returned by `stripe.checkout.sessions.retrieve`
and projected into the verify response (src/index.ts lines 408-418). -/
structure SessionData where
  id : String
  payment_status : String
  amount_total : Option ℤ
  customer_email : Option String
  metadata : List (String × String)
deriving DecidableEq, Repr

/-- The environment of the verify handler: what the single
`stripe.checkout.sessions.retrieve` call would return. -/
structure VerifyEnv where
  retrieveResult : Except String SessionData

/-- The body of `POST /api/contact` (interface `ContactFormRequest`,
src/index.ts lines 95-100).  Each field is `Option String`: `none` models
a field absent from the JSON body (`undefined` after destructuring). -/
structure ContactFormRequest where
  name : Option String
  email : Option String
  subject : Option String
  message : Option String
deriving DecidableEq, Repr

/-- The body of `POST /send-receipt` (interface `SendReceiptRequest`,
src/index.ts lines 85-92). -/
structure SendReceiptRequest where
  customerEmail : String
  orderId : String
  items : List CartItem
  total : ℚ
  customerName : String
  shippingAddress : String
deriving DecidableEq, Repr

/-- One rendered line of the receipt templates: the interpolated values of
`item.title`, `item.quantity`, `item.price` and the displayed subtotal
`item.price * item.quantity` (src/index.ts lines 470-481 and 527). -/
structure ReceiptItemLine where
  title : String
  quantity : ℚ
  unitPrice : ℚ
  subtotal : ℚ
deriving DecidableEq, Repr

/-- The rendered line for one cart item: the displayed subtotal is
computed as `price * quantity` from the item fields. -/
def receiptItemLine (item : CartItem) : ReceiptItemLine :=
  { title := item.title
    quantity := item.quantity
    unitPrice := item.price
    subtotal := item.price * item.quantity }

/-- The data interpolated into a mail body by the four templates. -/
inductive MailBody
  /-- Admin notification of a contact-form submission
  (src/index.ts lines 151-213). -/
  | contactAdmin (name email subject message : String)
  /-- User acknowledgment of a contact-form submission
  (src/index.ts lines 216-300). -/
  | contactUser (name subject message : String)
  /-- Customer order-confirmation receipt (src/index.ts lines 438-504):
  the per-item lines, the displayed total (the request `total` verbatim)
  and the shipping address. -/
  | receiptCustomer (orderId customerName : String)
      (itemLines : List ReceiptItemLine) (total : ℚ) (shippingAddress : String)
  /-- Admin new-order notification (src/index.ts lines 507-534). -/
  | receiptAdmin (orderId customerName customerEmail : String)
      (itemLines : List ReceiptItemLine) (total : ℚ) (shippingAddress : String)
      (itemsCount : Nat)
deriving DecidableEq, Repr

/-- A message handed to `transporter.sendMail`: recipient, reply-to,
subject and the interpolated body data. -/
structure MailMsg where
  «to» : Option String
  replyTo : Option String
  subject : String
  body : MailBody
deriving DecidableEq, Repr

/-- Which of the four `sendMail` call sites issued a send. -/
inductive SendSite
  /-- `adminMailOptions` of the contact handler (src/index.ts line 303). -/
  | contactAdminSite
  /-- `userMailOptions` of the contact handler (src/index.ts line 306). -/
  | contactUserSite
  /-- `customerMailOptions` of the receipt handler (src/index.ts line 537). -/
  | receiptCustomerSite
  /-- `adminMailOptions` of the receipt handler (src/index.ts line 540). -/
  | receiptAdminSite
deriving DecidableEq, Repr

/-- One external call performed by a handler, in program order. -/
inductive Effect
  /-- `transporter.verify()` (src/index.ts line 138). -/
  | smtpVerify
  /-- `transporter.sendMail(...)` with the given message. -/
  | sendMail (site : SendSite) (msg : MailMsg)
  /-- `stripe.checkout.sessions.create(...)` (src/index.ts line 377). -/
  | stripeCreate (params : SessionCreateParams)
  /-- `stripe.checkout.sessions.retrieve(session_id, ...)` (src/index.ts line 408). -/
  | stripeRetrieve (session_id : String)
deriving DecidableEq, Repr

/-- The send sites of the mail sends in a trace, in order. -/
def sendSites (tr : List Effect) : List SendSite :=
  tr.filterMap fun e =>
    match e with
    | .sendMail site _ => some site
    | _ => none

/-- The messages handed to `sendMail` in a trace, in order. -/
def sentMails (tr : List Effect) : List MailMsg :=
  tr.filterMap fun e =>
    match e with
    | .sendMail _ msg => some msg
    | _ => none

/-- The environment of the mail-sending handlers: the configured
credentials and admin address, whether `transporter.verify()` would
succeed, and the outcome of the n-th `sendMail` attempt of the request
(`.ok ()`, or `.error m` for a rejection carrying message `m`). -/
structure MailEnv where
  emailUser : Option String
  emailPass : Option String
  adminEmail : Option String
  verifyOk : Bool
  sendOutcome : Nat → Except String Unit

/-- The admin notification built by the contact handler
(`adminMailOptions`, src/index.ts lines 151-213). -/
def contactAdminMail (req : ContactFormRequest) (env : MailEnv) : MailMsg :=
  { «to» := orStr env.adminEmail env.emailUser
    replyTo := some (req.email.getD "")
    subject := "New Contact Form: " ++ req.subject.getD ""
    body := .contactAdmin (req.name.getD "") (req.email.getD "")
      (req.subject.getD "") (req.message.getD "") }

/-- The user acknowledgment built by the contact handler
(`userMailOptions`, src/index.ts lines 216-300). -/
def contactUserMail (req : ContactFormRequest) : MailMsg :=
  { «to» := some (req.email.getD "")
    replyTo := none
    subject := "Thank You for Contacting Adisa Olashile!"
    body := .contactUser (req.name.getD "") (req.subject.getD "")
      (req.message.getD "") }

/-- The message chosen by the catch block of the contact handler
(src/index.ts lines 319-327): a fixed public message selected by
substring tests on the underlying error text. -/
def contactCatchMessage (errorMessage : String) : String :=
  if jsIncludes errorMessage ("Invalid login") || jsIncludes errorMessage ("BadCredentials") then
    "Email authentication failed. Please contact administrator."
  else if jsIncludes errorMessage ("EAUTH") then
    "Email authentication failed. Please check your email configuration."
  else if jsIncludes errorMessage ("ECONNREFUSED") then
    "Unable to connect to email server. Please try again later."
  else
    "Failed to send message. Please try again later."

/-- The JSON response of the contact handler: HTTP status, the `success`
flag, and the `error` / `message` fields (absent when not set). -/
structure ContactRes where
  status : Nat
  success : Bool
  error : Option String
  message : Option String
deriving DecidableEq, Repr

/-- The contact handler (`POST /api/contact`, src/index.ts lines 103-334):
field-presence check, email-pattern check, credential check, SMTP verify,
then the admin send awaited before the user send; the catch block maps a
send failure to status 500 with a fixed public message. -/
def contactHandler (req : ContactFormRequest) (env : MailEnv) :
    ContactRes × List Effect :=
  if !truthyS req.name || !truthyS req.email || !truthyS req.subject
      || !truthyS req.message then
    (⟨400, false, some ("All fields are required"), none⟩, [])
  else if !emailRegexTest (req.email.getD "") then
    (⟨400, false, some ("Invalid email address"), none⟩, [])
  else if !truthyS env.emailUser || !truthyS env.emailPass then
    (⟨500, false, some ("Email service is not configured"), none⟩, [])
  else if !env.verifyOk then
    (⟨500, false, some ("Email service temporarily unavailable. Please try again later."), none⟩,
      [.smtpVerify])
  else
    match env.sendOutcome 0 with
    | .error m =>
      (⟨500, false, some (contactCatchMessage m), none⟩,
        [.smtpVerify, .sendMail .contactAdminSite (contactAdminMail req env)])
    | .ok _ =>
      match env.sendOutcome 1 with
      | .error m =>
        (⟨500, false, some (contactCatchMessage m), none⟩,
          [.smtpVerify, .sendMail .contactAdminSite (contactAdminMail req env),
            .sendMail .contactUserSite (contactUserMail req)])
      | .ok _ =>
        (⟨200, true, none,
            some ("Message sent successfully! You should receive a confirmation email shortly.")⟩,
          [.smtpVerify, .sendMail .contactAdminSite (contactAdminMail req env),
            .sendMail .contactUserSite (contactUserMail req)])

/-- The JSON response of the checkout handler: `{id, url}` on success,
`{error}` on failure. -/
structure CheckoutRes where
  status : Nat
  id : Option String
  url : Option String
  error : Option String
deriving DecidableEq, Repr

/-- The checkout handler (`POST /create-checkout-session`, src/index.ts
lines 337-398): builds the line items and session parameters, calls the
gateway once, and answers `{id, url}` on success or 500 with the raw
error message on a thrown error. -/
def checkoutHandler (req : CreateCheckoutSessionRequest) (env : CheckoutEnv) :
    CheckoutRes × List Effect :=
  match env.createResult with
  | .ok s => (⟨200, some s.id, s.url, none⟩, [.stripeCreate (checkoutParams req)])
  | .error m => (⟨500, none, none, some m⟩, [.stripeCreate (checkoutParams req)])

/-- The JSON response of the verify handler: the projected session data on
success, `{error}` on failure. -/
structure VerifyRes where
  status : Nat
  body : Option SessionData
  error : Option String
deriving DecidableEq, Repr

/-- The value of `req.query.session_id` as Express may deliver it:
absent, a single string, a list of strings (repeated parameter), or a
nested object. -/
inductive QueryVal
  | missing
  | str (s : String)
  | strList (ss : List String)
  | obj
deriving DecidableEq, Repr

/-- The verify handler (`GET /verify-payment`, src/index.ts lines
400-424): rejects a missing or non-string (or empty, hence falsy)
`session_id` with 400 before any gateway call, otherwise retrieves the
session and projects it; a thrown error yields 500 with the raw message. -/
def verifyHandler (session_id : QueryVal) (env : VerifyEnv) :
    VerifyRes × List Effect :=
  match session_id with
  | .str s =>
    if s = "" then
      (⟨400, none, some ("Session ID is required")⟩, [])
    else
      match env.retrieveResult with
      | .ok d => (⟨200, some d, none⟩, [.stripeRetrieve s])
      | .error m => (⟨500, none, some m⟩, [.stripeRetrieve s])
  | _ => (⟨400, none, some ("Session ID is required")⟩, [])

/-- The customer order-confirmation mail built by the receipt handler
(`customerMailOptions`, src/index.ts lines 438-504). -/
def receiptCustomerMail (req : SendReceiptRequest) : MailMsg :=
  { «to» := some req.customerEmail
    replyTo := none
    subject := "Order Confirmation - " ++ req.orderId
    body := .receiptCustomer req.orderId req.customerName
      (req.items.map receiptItemLine) req.total req.shippingAddress }

/-- The admin new-order mail built by the receipt handler
(`adminMailOptions`, src/index.ts lines 507-534). -/
def receiptAdminMail (req : SendReceiptRequest) (env : MailEnv) : MailMsg :=
  { «to» := orStr env.adminEmail env.emailUser
    replyTo := none
    subject := "🛍️ New Order Received - " ++ req.orderId
    body := .receiptAdmin req.orderId req.customerName req.customerEmail
      (req.items.map receiptItemLine) req.total req.shippingAddress
      req.items.length }

/-- The JSON response of the receipt handler:
`{success, message, orderId}` on success, `{error}` on failure (the
catch block at src/index.ts line 551 answers the raw error message). -/
structure ReceiptRes where
  status : Nat
  success : Option Bool
  message : Option String
  orderId : Option String
  error : Option String
deriving DecidableEq, Repr

/-- The receipt handler (`POST /send-receipt`, src/index.ts lines
426-553): throws on missing credentials (caught in the same handler,
answering 500 with the raw message), then sends the customer mail and
awaits it before sending the admin mail; any send failure is answered as
500 with the raw error message. -/
def receiptHandler (req : SendReceiptRequest) (env : MailEnv) :
    ReceiptRes × List Effect :=
  if !truthyS env.emailUser || !truthyS env.emailPass then
    (⟨500, none, none, none, some ("Email configuration is missing")⟩, [])
  else
    match env.sendOutcome 0 with
    | .error m =>
      (⟨500, none, none, none, some m⟩,
        [.sendMail .receiptCustomerSite (receiptCustomerMail req)])
    | .ok _ =>
      match env.sendOutcome 1 with
      | .error m =>
        (⟨500, none, none, none, some m⟩,
          [.sendMail .receiptCustomerSite (receiptCustomerMail req),
            .sendMail .receiptAdminSite (receiptAdminMail req env)])
      | .ok _ =>
        (⟨200, some true, some ("Receipts sent successfully"), some req.orderId, none⟩,
          [.sendMail .receiptCustomerSite (receiptCustomerMail req),
            .sendMail .receiptAdminSite (receiptAdminMail req env)])

/-- `jsRound` agrees with the Mathlib floor of `x + 1/2` (the `FloorRing`
instance of `ℚ` is built from `Rat.floor`). -/
theorem jsRound_eq_floor (x : ℚ) : jsRound x = ⌊x + 1/2⌋ := rfl

/-- The checkout request of the worked example: one item
`{title: Painting A, price: 100, quantity: 1}`, currency `NGN`,
multiplier 1. -/
def reqNGN : CreateCheckoutSessionRequest :=
  { items := [{ title := "Painting A", price := 100, quantity := 1 }]
    customerEmail := "c@example.com"
    successUrl := "https://shop.example/success"
    cancelUrl := "https://shop.example/cancel"
    currency := "NGN"
    currencyMultiplier := 1 }

/-- A checkout request with an unsupported currency (`JPY`). -/
def reqJPY : CreateCheckoutSessionRequest :=
  { items := [{ title := "Painting B", price := 5, quantity := 2 }]
    customerEmail := "c@example.com"
    successUrl := "https://shop.example/success"
    cancelUrl := "https://shop.example/cancel"
    currency := "JPY"
    currencyMultiplier := 100 }

/-- A gateway environment whose create call succeeds. -/
def envSess : CheckoutEnv :=
  ⟨.ok { id := "cs_1", url := some ("https://pay.example/cs_1") }⟩

/-- C1: for every checkout request whose currency is not in the supported
set (exact string membership), every line item sent to the gateway carries
currency `USD`, and the substitution is silent: when the gateway call
succeeds the response is the plain success response, not an error. -/
theorem claim_C1 (req : CreateCheckoutSessionRequest) (env : CheckoutEnv)
    (s : StripeSession)
    (hcur : supportedCurrencies.contains req.currency = false)
    (hok : env.createResult = .ok s) :
    ((checkoutParams req).line_items.all fun li => li.currency == "USD") = true ∧
    (checkoutHandler req env).1 = ⟨200, some s.id, s.url, none⟩ ∧
    (checkoutHandler req env).2 = [.stripeCreate (checkoutParams req)] := by
  have hmem : req.currency ∉ supportedCurrencies := by
    simpa using hcur
  refine ⟨?_, ?_, ?_⟩
  · simp [checkoutParams, lineItems, stripeCurrency, hmem]
  · simp [checkoutHandler, hok]
  · simp [checkoutHandler, hok]

/-- C1 witness: the theorem instantiated at a concrete `JPY` request. -/
theorem claim_C1_witness :
    ((checkoutParams reqJPY).line_items.all fun li => li.currency == "USD") = true ∧
    (checkoutHandler reqJPY envSess).1
      = ⟨200, some ("cs_1"), some ("https://pay.example/cs_1"), none⟩ ∧
    (checkoutHandler reqJPY envSess).2 = [.stripeCreate (checkoutParams reqJPY)] :=
  claim_C1 reqJPY envSess { id := "cs_1", url := some ("https://pay.example/cs_1") }
    (by decide) rfl

/-- C2: for every checkout request, the gateway receives exactly the
session parameters built from the request; their line-item list has
length `items.length + 1`, its first `items.length` elements carry the
input items title and quantity positionally, and the extra last element
is the shipping line with quantity 1. -/
theorem claim_C2 (req : CreateCheckoutSessionRequest) (env : CheckoutEnv) :
    (checkoutHandler req env).2 = [.stripeCreate (checkoutParams req)] ∧
    (checkoutParams req).line_items.length = req.items.length + 1 ∧
    (checkoutParams req).line_items.map (fun li => (li.name, li.quantity))
      = req.items.map (fun item => (item.title, item.quantity))
        ++ [("Shipping", (1 : ℚ))] := by
  refine ⟨?_, ?_, ?_⟩
  · cases h : env.createResult <;> simp [checkoutHandler, h]
  · simp [checkoutParams, lineItems]
  · simp [checkoutParams, lineItems]

/-- C2 witness: the theorem instantiated at the concrete `NGN` request. -/
theorem claim_C2_witness :
    (checkoutHandler reqNGN envSess).2 = [.stripeCreate (checkoutParams reqNGN)] ∧
    (checkoutParams reqNGN).line_items.length = reqNGN.items.length + 1 ∧
    (checkoutParams reqNGN).line_items.map (fun li => (li.name, li.quantity))
      = reqNGN.items.map (fun item => (item.title, item.quantity))
        ++ [("Shipping", (1 : ℚ))] :=
  claim_C2 reqNGN envSess

/-- C3: every cart line sent to the gateway carries minor-unit amount
`round(price * currencyMultiplier)` and the shipping line carries
`round(shippingAmount * currencyMultiplier)`, where the rounding agrees
with round-half-away-from-zero on non-negative inputs; on the worked
example (one item of price 100, currency `NGN`, multiplier 1) the
amounts are 100 and 15000. -/
theorem claim_C3 :
    (∀ req : CreateCheckoutSessionRequest,
      (lineItems req).map LineItem.unit_amount
        = req.items.map (fun item => jsRound (item.price * req.currencyMultiplier))
          ++ [jsRound (shippingAmount (stripeCurrency req.currency) * req.currencyMultiplier)]) ∧
    (∀ x : ℚ, 0 ≤ x → jsRound x = roundHalfAwayFromZero x) ∧
    (lineItems reqNGN).map LineItem.unit_amount = [100, 15000] := by
  refine ⟨?_, ?_, ?_⟩
  · intro req
    simp [lineItems]
  · intro x hx
    unfold jsRound roundHalfAwayFromZero
    rw [if_pos hx]
  · simp [reqNGN, lineItems, stripeCurrency, supportedCurrencies, shippingAmount,
      shippingRates, jsOrQ, jsRound_eq_floor]
    norm_num

/-- C3 witness: the rounding-agreement part at the concrete input `3/2`. -/
theorem claim_C3_witness : jsRound (3/2) = roundHalfAwayFromZero (3/2) :=
  claim_C3.2.1 (3/2) (by norm_num)

/-- C4: the shipping surcharge (before multiplier conversion) is the fixed
table `USD ↦ 10`, `GBP ↦ 7.9`, `NGN ↦ 15000`; every other currency
(including `EUR`, `CAD`, `AUD`) receives the `USD` rate 10; and the last
line item of every checkout request is the shipping surcharge of the
effective currency converted through the multiplier. -/
theorem claim_C4 :
    ((shippingAmount ("USD") = 10 ∧ shippingAmount ("GBP") = 79/10
        ∧ shippingAmount ("NGN") = 15000)
      ∧ (shippingAmount ("EUR") = 10 ∧ shippingAmount ("CAD") = 10
        ∧ shippingAmount ("AUD") = 10)) ∧
    (∀ c : String, c ≠ "USD" → c ≠ "GBP" → c ≠ "NGN" → shippingAmount c = 10) ∧
    (∀ req : CreateCheckoutSessionRequest,
      ((lineItems req).getLast?).map LineItem.unit_amount
        = some (jsRound (shippingAmount (stripeCurrency req.currency)
            * req.currencyMultiplier))) := by
  refine ⟨⟨⟨?_, ?_, ?_⟩, ⟨?_, ?_, ?_⟩⟩, ?_, ?_⟩
  · simp +decide [shippingAmount, shippingRates, jsOrQ]
  · simp +decide [shippingAmount, shippingRates, jsOrQ]
  · simp +decide [shippingAmount, shippingRates, jsOrQ]
  · simp +decide [shippingAmount, shippingRates, jsOrQ]
  · simp +decide [shippingAmount, shippingRates, jsOrQ]
  · simp +decide [shippingAmount, shippingRates, jsOrQ]
  · intro c h1 h2 h3
    simp [shippingAmount, shippingRates, jsOrQ, h1, h2, h3]
  · intro req
    simp [lineItems]

/-- C4 witness: the fallback part instantiated at `EUR`. -/
theorem claim_C4_witness : shippingAmount ("EUR") = 10 :=
  claim_C4.2.1 "EUR" (by decide) (by decide) (by decide)

/-- A valid contact-form request. -/
def cReqOk : ContactFormRequest :=
  { name := some ("Ada"), email := some ("ada@example.com")
    subject := some ("Hi"), message := some ("Hello there") }

/-- A contact-form request whose email fails the pattern. -/
def cReqBadEmail : ContactFormRequest :=
  { name := some ("Ada"), email := some ("not-an-email")
    subject := some ("Hi"), message := some ("Hello there") }

/-- The mail environment with credentials configured and every SMTP
operation succeeding. -/
def cEnvOk : MailEnv :=
  { emailUser := some ("owner@site.example"), emailPass := some ("pw")
    adminEmail := some ("admin@site.example"), verifyOk := true
    sendOutcome := fun _ => .ok () }

/-- The mail environment with no credentials configured. -/
def cEnvNoCreds : MailEnv :=
  { emailUser := none, emailPass := none
    adminEmail := none, verifyOk := true
    sendOutcome := fun _ => .ok () }

/-- The mail environment in which every `sendMail` attempt is rejected
with the message `boom`. -/
def cEnvFail : MailEnv :=
  { emailUser := some ("owner@site.example"), emailPass := some ("pw")
    adminEmail := some ("admin@site.example"), verifyOk := true
    sendOutcome := fun _ => .error "boom" }

/-- A verify environment whose retrieve call succeeds. -/
def vEnvOk : VerifyEnv :=
  ⟨.ok { id := "cs_1", payment_status := "paid", amount_total := some 11000
         customer_email := some ("c@example.com"), metadata := [] }⟩

/-- C5: every validation failure is rejected with 400 before any external
call: a contact request with a missing (falsy) field, or one whose email
fails the pattern, answers 400 with an empty external-call trace; a
verify request whose `session_id` is absent or not a single string
answers 400 `Session ID is required` with an empty trace. -/
theorem claim_C5 :
    (∀ (req : ContactFormRequest) (env : MailEnv),
      (truthyS req.name = false ∨ truthyS req.email = false
        ∨ truthyS req.subject = false ∨ truthyS req.message = false) →
      (contactHandler req env).1.status = 400 ∧ (contactHandler req env).2 = []) ∧
    (∀ (req : ContactFormRequest) (env : MailEnv),
      emailRegexTest (req.email.getD "") = false →
      (contactHandler req env).1.status = 400 ∧ (contactHandler req env).2 = []) ∧
    (∀ (q : QueryVal) (env : VerifyEnv),
      (q = .missing ∨ (∃ ss, q = .strList ss) ∨ q = .obj) →
      (verifyHandler q env).1 = ⟨400, none, some ("Session ID is required")⟩
        ∧ (verifyHandler q env).2 = []) := by
  refine ⟨?_, ?_, ?_⟩
  · intro req env h
    rcases h with h | h | h | h <;> simp [contactHandler, h]
  · intro req env h
    cases hn : truthyS req.name <;> cases he : truthyS req.email
      <;> cases hs : truthyS req.subject <;> cases hm : truthyS req.message
      <;> simp [contactHandler, hn, he, hs, hm, h]
  · intro q env h
    rcases h with h | ⟨ss, h⟩ | h <;> subst h <;> simp [verifyHandler]

/-- C5 witness: the three parts instantiated at concrete inputs — a
request missing its name, a request with a malformed email, and a verify
query with no `session_id`. -/
theorem claim_C5_witness :
    ((contactHandler ⟨none, some ("a@b.co"), some ("s"), some ("m")⟩ cEnvOk).1.status = 400
      ∧ (contactHandler ⟨none, some ("a@b.co"), some ("s"), some ("m")⟩ cEnvOk).2 = []) ∧
    ((contactHandler cReqBadEmail cEnvOk).1.status = 400
      ∧ (contactHandler cReqBadEmail cEnvOk).2 = []) ∧
    ((verifyHandler .missing vEnvOk).1 = ⟨400, none, some ("Session ID is required")⟩
      ∧ (verifyHandler .missing vEnvOk).2 = []) :=
  ⟨claim_C5.1 _ cEnvOk (Or.inl (by decide)),
   claim_C5.2.1 cReqBadEmail cEnvOk (by decide),
   claim_C5.2.2 .missing vEnvOk (Or.inl rfl)⟩

/-- C6: for every valid contact request (all fields truthy, email passing
the pattern, credentials configured, verify and both sends succeeding),
the handler answers 200 with success `true`, and exactly two mail sends
are attempted, the admin notification first and the user acknowledgment
second. -/
theorem claim_C6 (req : ContactFormRequest) (env : MailEnv)
    (h1 : truthyS req.name = true) (h2 : truthyS req.email = true)
    (h3 : truthyS req.subject = true) (h4 : truthyS req.message = true)
    (h5 : emailRegexTest (req.email.getD "") = true)
    (h6 : truthyS env.emailUser = true) (h7 : truthyS env.emailPass = true)
    (h8 : env.verifyOk = true)
    (h9 : env.sendOutcome 0 = .ok ()) (h10 : env.sendOutcome 1 = .ok ()) :
    (contactHandler req env).1
      = ⟨200, true, none,
          some ("Message sent successfully! You should receive a confirmation email shortly.")⟩ ∧
    sendSites (contactHandler req env).2 = [.contactAdminSite, .contactUserSite] := by
  constructor <;> simp [contactHandler, h1, h2, h3, h4, h5, h6, h7, h8, h9, h10, sendSites]

/-- C6 witness: the theorem instantiated at a concrete valid request and
an all-succeeding environment. -/
theorem claim_C6_witness :
    (contactHandler cReqOk cEnvOk).1
      = ⟨200, true, none,
          some ("Message sent successfully! You should receive a confirmation email shortly.")⟩ ∧
    sendSites (contactHandler cReqOk cEnvOk).2 = [.contactAdminSite, .contactUserSite] :=
  claim_C6 cReqOk cEnvOk (by decide) (by decide) (by decide) (by decide)
    (by decide) (by decide) (by decide) rfl rfl rfl

/-- A receipt request whose `total` (999) differs from the sum of the
item subtotals (2 × 3 = 6). -/
def rReqEx : SendReceiptRequest :=
  { customerEmail := "c@example.com", orderId := "ord-1"
    items := [{ title := "Print", price := 2, quantity := 3 }]
    total := 999, customerName := "Cara", shippingAddress := "1 Road,Town" }

/-- C7 counterexample: in the receipt flow with both sends succeeding,
the customer email is attempted strictly before the admin email, so the
claim that the admin email precedes the customer email in this flow is
false at this input. -/
theorem claim_C7_counterexample :
    sendSites (receiptHandler rReqEx cEnvOk).2
      = [.receiptCustomerSite, .receiptAdminSite] ∧
    sendSites (receiptHandler rReqEx cEnvOk).2
      ≠ [.receiptAdminSite, .receiptCustomerSite] ∧
    (sendSites (receiptHandler rReqEx cEnvOk).2).head? ≠ some .receiptAdminSite := by
  refine ⟨?_, ?_, ?_⟩ <;> decide

/-- C7 (amended): in the contact flow the admin email is sent and awaited
before the user email begins; in the receipt flow the customer email is
sent and awaited before the admin email begins; in either flow a failure
of the first send prevents the second send from being attempted. -/
theorem claim_C7 :
    (∀ (req : ContactFormRequest) (env : MailEnv),
      sendSites (contactHandler req env).2 = []
        ∨ sendSites (contactHandler req env).2 = [.contactAdminSite]
        ∨ sendSites (contactHandler req env).2 = [.contactAdminSite, .contactUserSite]) ∧
    (∀ (req : SendReceiptRequest) (env : MailEnv),
      sendSites (receiptHandler req env).2 = []
        ∨ sendSites (receiptHandler req env).2 = [.receiptCustomerSite]
        ∨ sendSites (receiptHandler req env).2 = [.receiptCustomerSite, .receiptAdminSite]) ∧
    (∀ (req : ContactFormRequest) (env : MailEnv) (m : String),
      env.sendOutcome 0 = .error m →
      (sendSites (contactHandler req env).2).length ≤ 1) ∧
    (∀ (req : SendReceiptRequest) (env : MailEnv) (m : String),
      env.sendOutcome 0 = .error m →
      (sendSites (receiptHandler req env).2).length ≤ 1) := by
  refine ⟨?_, ?_, ?_, ?_⟩
  · intro req env
    unfold contactHandler
    repeat' split
    all_goals first
      | exact Or.inl rfl
      | exact Or.inr (Or.inl rfl)
      | exact Or.inr (Or.inr rfl)
  · intro req env
    unfold receiptHandler
    repeat' split
    all_goals first
      | exact Or.inl rfl
      | exact Or.inr (Or.inl rfl)
      | exact Or.inr (Or.inr rfl)
  · intro req env m h
    unfold contactHandler
    repeat' split
    all_goals simp_all [sendSites]
  · intro req env m h
    unfold receiptHandler
    repeat' split
    all_goals simp_all [sendSites]

/-- C7 witness: the failure-prevents-second-send parts instantiated at
concrete requests with a failing first send. -/
theorem claim_C7_witness :
    (sendSites (contactHandler cReqOk cEnvFail).2).length ≤ 1 ∧
    (sendSites (receiptHandler rReqEx cEnvFail).2).length ≤ 1 :=
  ⟨claim_C7.2.2.1 cReqOk cEnvFail "boom" rfl,
   claim_C7.2.2.2 rReqEx cEnvFail "boom" rfl⟩

/-- C8 counterexample: when the first receipt send throws with message
`boom`, the receipt handler answers 500 carrying the raw text `boom` —
not a generic message (the contact handler would have answered its fixed
fallback message instead) — so the claim that the receipt handler never
surfaces the raw error text is false at this input. -/
theorem claim_C8_counterexample :
    (receiptHandler rReqEx cEnvFail).1 = ⟨500, none, none, none, some ("boom")⟩ ∧
    contactCatchMessage ("boom") = "Failed to send message. Please try again later." ∧
    ("boom" : String) ≠ "Failed to send message. Please try again later." := by
  refine ⟨?_, ?_, ?_⟩ <;> decide

/-- C8 (amended): when a downstream call throws, the contact handler
answers 500 with a message drawn from a fixed set of four generic public
messages (never the raw text verbatim unless it happens to coincide),
while the checkout, verify and receipt handlers answer 500 with the raw
underlying error message in the `error` field. -/
theorem claim_C8 :
    (∀ m : String, contactCatchMessage m
      ∈ ["Email authentication failed. Please contact administrator.",
         "Email authentication failed. Please check your email configuration.",
         "Unable to connect to email server. Please try again later.",
         "Failed to send message. Please try again later."]) ∧
    (∀ (req : ContactFormRequest) (env : MailEnv) (m : String),
      truthyS req.name = true → truthyS req.email = true →
      truthyS req.subject = true → truthyS req.message = true →
      emailRegexTest (req.email.getD "") = true →
      truthyS env.emailUser = true → truthyS env.emailPass = true →
      env.verifyOk = true →
      env.sendOutcome 0 = .error m →
      (contactHandler req env).1 = ⟨500, false, some (contactCatchMessage m), none⟩) ∧
    (∀ (req : ContactFormRequest) (env : MailEnv) (m : String),
      truthyS req.name = true → truthyS req.email = true →
      truthyS req.subject = true → truthyS req.message = true →
      emailRegexTest (req.email.getD "") = true →
      truthyS env.emailUser = true → truthyS env.emailPass = true →
      env.verifyOk = true →
      env.sendOutcome 0 = .ok () → env.sendOutcome 1 = .error m →
      (contactHandler req env).1 = ⟨500, false, some (contactCatchMessage m), none⟩) ∧
    (∀ (req : CreateCheckoutSessionRequest) (env : CheckoutEnv) (m : String),
      env.createResult = .error m →
      (checkoutHandler req env).1 = ⟨500, none, none, some m⟩) ∧
    (∀ (s : String) (env : VerifyEnv) (m : String), s ≠ "" →
      env.retrieveResult = .error m →
      (verifyHandler (.str s) env).1 = ⟨500, none, some m⟩) ∧
    (∀ (req : SendReceiptRequest) (env : MailEnv) (m : String),
      truthyS env.emailUser = true → truthyS env.emailPass = true →
      env.sendOutcome 0 = .error m →
      (receiptHandler req env).1 = ⟨500, none, none, none, some m⟩) ∧
    (∀ (req : SendReceiptRequest) (env : MailEnv) (m : String),
      truthyS env.emailUser = true → truthyS env.emailPass = true →
      env.sendOutcome 0 = .ok () → env.sendOutcome 1 = .error m →
      (receiptHandler req env).1 = ⟨500, none, none, none, some m⟩) := by
  refine ⟨?_, ?_, ?_, ?_, ?_, ?_, ?_⟩
  · intro m
    unfold contactCatchMessage
    repeat' split
    all_goals simp
  · intro req env m h1 h2 h3 h4 h5 h6 h7 h8 h9
    simp [contactHandler, h1, h2, h3, h4, h5, h6, h7, h8, h9]
  · intro req env m h1 h2 h3 h4 h5 h6 h7 h8 h9 h10
    simp [contactHandler, h1, h2, h3, h4, h5, h6, h7, h8, h9, h10]
  · intro req env m h
    simp [checkoutHandler, h]
  · intro s env m hs h
    simp [verifyHandler, hs, h]
  · intro req env m h1 h2 h3
    simp [receiptHandler, h1, h2, h3]
  · intro req env m h1 h2 h3 h4
    simp [receiptHandler, h1, h2, h3, h4]

/-- C8 witness: the checkout raw-message part at a concrete failing
gateway call, and the fixed-set part at a concrete error text. -/
theorem claim_C8_witness :
    (checkoutHandler reqNGN ⟨.error "card_declined"⟩).1
      = ⟨500, none, none, some ("card_declined")⟩ ∧
    contactCatchMessage ("connect ECONNREFUSED 127.0.0.1:465")
      ∈ ["Email authentication failed. Please contact administrator.",
         "Email authentication failed. Please check your email configuration.",
         "Unable to connect to email server. Please try again later.",
         "Failed to send message. Please try again later."] :=
  ⟨claim_C8.2.2.2.1 reqNGN ⟨.error "card_declined"⟩ "card_declined" rfl,
   claim_C8.1 "connect ECONNREFUSED 127.0.0.1:465"⟩

/-- C9: in both rendered receipt mails (customer body and admin body),
each item line displays the subtotal computed as `price * quantity` from
the item fields, while the displayed overall total is the request
`total` field taken verbatim — the theorem holds for every request,
including those whose `total` disagrees with the sum of the item
subtotals, and the handler still answers success there (no recomputation
or check). -/
theorem claim_C9 (req : SendReceiptRequest) (env : MailEnv)
    (h1 : truthyS env.emailUser = true) (h2 : truthyS env.emailPass = true)
    (h3 : env.sendOutcome 0 = .ok ()) :
    sentMails (receiptHandler req env).2
      = [receiptCustomerMail req, receiptAdminMail req env] ∧
    (receiptCustomerMail req).body
      = .receiptCustomer req.orderId req.customerName
          (req.items.map receiptItemLine) req.total req.shippingAddress ∧
    (receiptAdminMail req env).body
      = .receiptAdmin req.orderId req.customerName req.customerEmail
          (req.items.map receiptItemLine) req.total req.shippingAddress
          req.items.length ∧
    (∀ item : CartItem, (receiptItemLine item).subtotal = item.price * item.quantity) ∧
    (env.sendOutcome 1 = .ok () →
      (receiptHandler req env).1
        = ⟨200, some true, some ("Receipts sent successfully"), some req.orderId, none⟩) := by
  refine ⟨?_, rfl, rfl, fun item => rfl, ?_⟩
  · cases h4 : env.sendOutcome 1 <;>
      simp [receiptHandler, h1, h2, h3, h4, sentMails]
  · intro h4
    simp [receiptHandler, h1, h2, h3, h4]

/-- C9 witness: the theorem instantiated at a request whose `total`
(999) is not the sum of its item subtotals (6), showing the total is
still displayed verbatim and the response is still a success. -/
theorem claim_C9_witness :
    sentMails (receiptHandler rReqEx cEnvOk).2
      = [receiptCustomerMail rReqEx, receiptAdminMail rReqEx cEnvOk] ∧
    (receiptCustomerMail rReqEx).body
      = .receiptCustomer rReqEx.orderId rReqEx.customerName
          (rReqEx.items.map receiptItemLine) rReqEx.total rReqEx.shippingAddress ∧
    (receiptHandler rReqEx cEnvOk).1
      = ⟨200, some true, some ("Receipts sent successfully"), some rReqEx.orderId, none⟩ :=
  ⟨(claim_C9 rReqEx cEnvOk (by decide) (by decide) rfl).1,
   (claim_C9 rReqEx cEnvOk (by decide) (by decide) rfl).2.1,
   (claim_C9 rReqEx cEnvOk (by decide) (by decide) rfl).2.2.2.2 rfl⟩

/-- C10: the contact handler applies its checks in a fixed order — field
presence (truthiness, so an empty string counts as missing), then email
pattern, then credential configuration, then SMTP verify — and the first
failing check determines the whole response; in particular a request
with an empty name and a malformed email receives the
all-fields-required 400, and the credential 500 is reached only past
both 400 checks. -/
theorem claim_C10 :
    (∀ (req : ContactFormRequest) (env : MailEnv),
      (truthyS req.name && truthyS req.email && truthyS req.subject
        && truthyS req.message) = false →
      contactHandler req env
        = (⟨400, false, some ("All fields are required"), none⟩, [])) ∧
    (∀ (req : ContactFormRequest) (env : MailEnv),
      (truthyS req.name && truthyS req.email && truthyS req.subject
        && truthyS req.message) = true →
      emailRegexTest (req.email.getD "") = false →
      contactHandler req env
        = (⟨400, false, some ("Invalid email address"), none⟩, [])) ∧
    (∀ (req : ContactFormRequest) (env : MailEnv),
      (truthyS req.name && truthyS req.email && truthyS req.subject
        && truthyS req.message) = true →
      emailRegexTest (req.email.getD "") = true →
      (truthyS env.emailUser && truthyS env.emailPass) = false →
      contactHandler req env
        = (⟨500, false, some ("Email service is not configured"), none⟩, [])) ∧
    (∀ (req : ContactFormRequest) (env : MailEnv),
      (truthyS req.name && truthyS req.email && truthyS req.subject
        && truthyS req.message) = true →
      emailRegexTest (req.email.getD "") = true →
      (truthyS env.emailUser && truthyS env.emailPass) = true →
      env.verifyOk = false →
      contactHandler req env
        = (⟨500, false, some ("Email service temporarily unavailable. Please try again later."), none⟩,
            [.smtpVerify])) ∧
    (∀ env : MailEnv,
      (contactHandler ⟨some (""), some ("not-an-email"), some ("x"), some ("y")⟩ env).1
        = ⟨400, false, some ("All fields are required"), none⟩) := by
  refine ⟨?_, ?_, ?_, ?_, ?_⟩
  · intro req env h
    rcases Bool.and_eq_false_iff.mp h with h' | h'
    · rcases Bool.and_eq_false_iff.mp h' with h'' | h''
      · rcases Bool.and_eq_false_iff.mp h'' with h3 | h3 <;> simp [contactHandler, h3]
      · simp [contactHandler, h'']
    · simp [contactHandler, h']
  · intro req env h he
    rcases Bool.and_eq_true_iff.mp h with ⟨h', h4⟩
    rcases Bool.and_eq_true_iff.mp h' with ⟨h'', h3⟩
    rcases Bool.and_eq_true_iff.mp h'' with ⟨h1, h2⟩
    simp [contactHandler, h1, h2, h3, h4, he]
  · intro req env h he hc
    rcases Bool.and_eq_true_iff.mp h with ⟨h', h4⟩
    rcases Bool.and_eq_true_iff.mp h' with ⟨h'', h3⟩
    rcases Bool.and_eq_true_iff.mp h'' with ⟨h1, h2⟩
    rcases Bool.and_eq_false_iff.mp hc with h5 | h5 <;>
      simp [contactHandler, h1, h2, h3, h4, he, h5]
  · intro req env h he hc hv
    rcases Bool.and_eq_true_iff.mp h with ⟨h', h4⟩
    rcases Bool.and_eq_true_iff.mp h' with ⟨h'', h3⟩
    rcases Bool.and_eq_true_iff.mp h'' with ⟨h1, h2⟩
    rcases Bool.and_eq_true_iff.mp hc with ⟨h5, h6⟩
    simp [contactHandler, h1, h2, h3, h4, he, h5, h6, hv]
  · intro env
    simp +decide [contactHandler]

/-- C10 witness: the empty-name-and-malformed-email request receives the
all-fields 400; the valid-fields-but-bad-email request receives the
invalid-email 400; the valid request with no credentials receives the
not-configured 500. -/
theorem claim_C10_witness :
    contactHandler ⟨some (""), some ("not-an-email"), some ("x"), some ("y")⟩ cEnvOk
      = (⟨400, false, some ("All fields are required"), none⟩, []) ∧
    contactHandler cReqBadEmail cEnvOk
      = (⟨400, false, some ("Invalid email address"), none⟩, []) ∧
    contactHandler cReqOk cEnvNoCreds
      = (⟨500, false, some ("Email service is not configured"), none⟩, []) :=
  ⟨claim_C10.1 _ cEnvOk (by decide),
   claim_C10.2.1 cReqBadEmail cEnvOk (by decide) (by decide),
   claim_C10.2.2.1 cReqOk cEnvNoCreds (by decide) (by decide) (by decide)⟩
